import Mathlib

/-!
Verification of the NVRLite control plane and recorder engine.

The definitions below are a shallow embedding of the C++ sources:

* `src/src/http/HttpHandler.cpp` — the HTTP route handlers of
  `HttpDataServer::createRoutes` and the registry slots
  (`onRecordingStarted`, `onRecordingStopped`, `onStreamOnlineChanged`,
  `registerStream`).
* `src/include/Http/HttpHandler.hpp` — the `Mp4RecorderWorker` engine
  (`onPacket`, `startRecording`, `stopRecording`, `onPostBufferTimeout`,
  `writePacket`, `finalizeRecording`).

QHash / QSet are embedded as association lists keyed by `String`; an
unknown AV timestamp (`AV_NOPTS_VALUE`) is `Option.none`; `float` /
`double` arithmetic is idealized as exact rational arithmetic; blocking
poll loops are given the sequence of registry reads they would perform,
one per sleep tick, and the loop bound is derived from the deadline and
cadence constants of the source.
-/

namespace NVRLite

/-! ## QHash / QSet embedding -/

/-- `QHash<QString,A>::value(k, d)`-style lookup list. First binding wins,
mirroring the fact that `QHash` holds one value per key. -/
def qhashLookup {α : Type} (h : List (String × α)) (k : String) : Option α :=
  match h with
  | [] => none
  | (k1, v) :: rest => if k = k1 then some v else qhashLookup rest k

/-- `QHash::value(key, defaultValue)`. -/
def qhashValue {α : Type} (h : List (String × α)) (k : String) (d : α) : α :=
  (qhashLookup h k).getD d

/-- `QHash::contains(key)`. -/
def qhashContains {α : Type} (h : List (String × α)) (k : String) : Bool :=
  (qhashLookup h k).isSome

/-- `QHash::remove(key)`. -/
def qhashRemove {α : Type} (h : List (String × α)) (k : String) : List (String × α) :=
  match h with
  | [] => []
  | (k1, v) :: rest =>
      if k1 = k then qhashRemove rest k else (k1, v) :: qhashRemove rest k

/-- `QHash::insert(key, value)` / `hash[key] = value`. -/
def qhashInsert {α : Type} (h : List (String × α)) (k : String) (v : α) :
    List (String × α) :=
  (k, v) :: qhashRemove h k

/-- `QSet<QString>::contains`. -/
def qsetContains (s : List String) (k : String) : Bool :=
  match s with
  | [] => false
  | x :: rest => if k = x then true else qsetContains rest k

/-- `QSet<QString>::insert`. -/
def qsetInsert (s : List String) (x : String) : List String :=
  if qsetContains s x then s else x :: s

theorem qhashLookup_insert_self {α : Type} (h : List (String × α)) (k : String) (v : α) :
    qhashLookup (qhashInsert h k v) k = some v := by
  simp [qhashInsert, qhashLookup]

theorem qhashLookup_remove_self {α : Type} (h : List (String × α)) (k : String) :
    qhashLookup (qhashRemove h k) k = none := by
  induction h with
  | nil => simp [qhashRemove, qhashLookup]
  | cons p rest ih =>
      obtain ⟨k1, v⟩ := p
      by_cases hk : k1 = k
      · simp [qhashRemove, hk, ih]
      · have hk2 : ¬ k = k1 := fun h2 => hk h2.symm
        simp [qhashRemove, hk, qhashLookup, hk2, ih]

theorem qsetContains_insert_self (s : List String) (x : String) :
    qsetContains (qsetInsert s x) x = true := by
  by_cases h : qsetContains s x = true
  · simp [qsetInsert, h]
  · simp only [Bool.not_eq_true] at h
    simp [qsetInsert, h, qsetContains]

theorem qsetContains_insert (s : List String) (x y : String) :
    qsetContains (qsetInsert s x) y = true ↔
      qsetContains s y = true ∨ y = x := by
  by_cases h : qsetContains s x = true
  · constructor
    · intro hy
      simp only [qsetInsert, h, if_true] at hy
      exact Or.inl hy
    · rintro (hy | rfl)
      · simpa [qsetInsert, h] using hy
      · simp [qsetInsert, h]
  · simp only [Bool.not_eq_true] at h
    constructor
    · intro hy
      simp only [qsetInsert, h, Bool.false_eq_true, if_false, qsetContains] at hy
      by_cases hyx : y = x
      · exact Or.inr hyx
      · simp only [hyx, if_false] at hy
        exact Or.inl hy
    · rintro (hy | rfl)
      · by_cases hyx : y = x
        · simp [qsetInsert, h, qsetContains, hyx]
        · simp [qsetInsert, h, qsetContains, hyx, hy]
      · simp [qsetInsert, h, qsetContains]

/-! ## Registry / HTTP server state

State of `HttpDataServer` guarded by `m_filesLock`
(see `src/src/http/HttpHandler.cpp`). -/

structure ServerState where
  knownStreams : List String
  streamingState : List (String × Bool)
  recordingState : List (String × Bool)
  recordingPending : List (String × Bool)
  stopPending : List (String × Bool)
  lastRecordingFile : List (String × String)
deriving DecidableEq, Repr

def emptyServerState : ServerState :=
  { knownStreams := [], streamingState := [], recordingState := [],
    recordingPending := [], stopPending := [], lastRecordingFile := [] }

/-- `HttpDataServer::registerStream` (HttpHandler.cpp lines 665-678). -/
def registerStream (st : ServerState) (streamId : String) : ServerState :=
  if qsetContains st.knownStreams streamId then st
  else
    { st with
      knownStreams := qsetInsert st.knownStreams streamId,
      recordingState :=
        if qhashContains st.recordingState streamId then st.recordingState
        else qhashInsert st.recordingState streamId false }

/-- `HttpDataServer::onStreamOnlineChanged` (HttpHandler.cpp lines 658-663). -/
def onStreamOnlineChanged (st : ServerState) (streamId : String) (online : Bool) :
    ServerState :=
  { st with
    knownStreams := qsetInsert st.knownStreams streamId,
    streamingState := qhashInsert st.streamingState streamId online }

/-- `HttpDataServer::onRecordingStarted` (HttpHandler.cpp lines 683-704).
The returned `Bool` is the `stopNow` flag: when true the slot re-emits
`stopRecordingRequested` after releasing the lock. -/
def onRecordingStarted (st : ServerState) (streamId filePath : String) :
    ServerState × Bool :=
  let stopNow := qhashValue st.stopPending streamId false
  ({ st with
     lastRecordingFile := qhashInsert st.lastRecordingFile streamId filePath,
     recordingState := qhashInsert st.recordingState streamId true,
     recordingPending := qhashInsert st.recordingPending streamId false,
     knownStreams := qsetInsert st.knownStreams streamId,
     stopPending := qhashInsert st.stopPending streamId false },
   stopNow)

/-- `HttpDataServer::onRecordingStopped` (HttpHandler.cpp lines 706-716).
`m_lastRecordingFile` is deliberately kept. -/
def onRecordingStopped (st : ServerState) (streamId : String) : ServerState :=
  { st with
    recordingState := qhashInsert st.recordingState streamId false,
    recordingPending := qhashInsert st.recordingPending streamId false,
    stopPending := qhashInsert st.stopPending streamId false,
    knownStreams := qsetInsert st.knownStreams streamId }

/-! ## HTTP requests and responses -/

/-- Outcome of `json::parse(req.body)` plus the
`contains("stream_id") && is_string` check shared by the POST handlers. -/
inductive ParsedBody where
  | malformed (err : String)
  | missingStreamId
  | streamId (id : String)
deriving DecidableEq, Repr

/-- The JSON object a handler serializes, restricted to the fields the
route handlers actually set. `fileField = some none` renders `file:null`;
`fileField = none` means the key is absent. -/
structure HttpJsonResponse where
  httpStatus : Nat
  status : String
  message : Option String
  streamIdField : Option String
  fileField : Option (Option String)
deriving DecidableEq, Repr

/-- `/record/start` waits up to 2000 ms ... -/
def recStartDeadlineMs : Nat := 2000

/-- ... sleeping 50 ms between registry reads. -/
def recStartPollMs : Nat := 50

/-- Number of registry reads the `/record/start` wait loop performs. -/
def recStartPollTicks : Nat := recStartDeadlineMs / recStartPollMs

/-- `/record/stop` waits up to 1000 ms ... -/
def recStopDeadlineMs : Nat := 1000

/-- ... sleeping 25 ms between registry reads. -/
def recStopPollMs : Nat := 25

/-- Number of registry reads the `/record/stop` wait loop performs. -/
def recStopPollTicks : Nat := recStopDeadlineMs / recStopPollMs

/-- The bounded wait loop shared by `/record/start` and `/record/stop`:
`obs` lists the values of `m_lastRecordingFile[streamId]` the handler
reads at successive ticks; the loop stops at the first tick where the
hash contains the key and yields that value, and yields the
default-constructed `QString` (the empty string) once the deadline
elapses. -/
def pollLastFile (ticks : Nat) (obs : List (Option String)) : String :=
  match ticks, obs with
  | 0, _ => ""
  | _ + 1, [] => ""
  | t + 1, o :: rest =>
      match o with
      | some f => f
      | none => pollLastFile t rest

/-- The `POST /record/start` route handler (HttpHandler.cpp lines 82-184).
Returns the response, the state as mutated by the handler itself, and
whether `startRecordingRequested` was emitted. -/
def recordStartHandler (st : ServerState) (body : ParsedBody)
    (obs : List (Option String)) : HttpJsonResponse × ServerState × Bool :=
  match body with
  | .malformed e =>
      ({ httpStatus := 400, status := "error",
         message := some ("JSON parse error: " ++ e),
         streamIdField := none, fileField := none }, st, false)
  | .missingStreamId =>
      ({ httpStatus := 400, status := "error",
         message := some "Missing or invalid \x27stream_id\x27",
         streamIdField := none, fileField := none }, st, false)
  | .streamId sid =>
      if qsetContains st.knownStreams sid = false then
        ({ httpStatus := 404, status := "failed",
           message := some "Unknown \x27stream_id\x27",
           streamIdField := none, fileField := none }, st, false)
      else
        let isRec := qhashValue st.recordingState sid false
        let isPending := qhashValue st.recordingPending sid false
        if isRec then
          ({ httpStatus := 200, status := "ok",
             message := some "already recording",
             streamIdField := some sid,
             fileField := some (qhashLookup st.lastRecordingFile sid) }, st, false)
        else if isPending then
          ({ httpStatus := 202, status := "ok",
             message := some "start already pending",
             streamIdField := some sid, fileField := none }, st, false)
        else
          let st1 := { st with
            recordingPending := qhashInsert st.recordingPending sid true,
            stopPending := qhashInsert st.stopPending sid false,
            lastRecordingFile := qhashRemove st.lastRecordingFile sid }
          let filePath := pollLastFile recStartPollTicks obs
          if filePath = "" then
            ({ httpStatus := 500, status := "failed",
               message := some "timeout waiting for recording file to be created/known",
               streamIdField := some sid, fileField := some none }, st1, true)
          else
            ({ httpStatus := 200, status := "ok", message := none,
               streamIdField := some sid, fileField := some (some filePath) }, st1, true)

/-- The `POST /record/stop` route handler (HttpHandler.cpp lines 190-277). -/
def recordStopHandler (st : ServerState) (body : ParsedBody)
    (obs : List (Option String)) : HttpJsonResponse × ServerState × Bool :=
  match body with
  | .malformed e =>
      ({ httpStatus := 400, status := "error",
         message := some ("JSON parse error: " ++ e),
         streamIdField := none, fileField := none }, st, false)
  | .missingStreamId =>
      ({ httpStatus := 400, status := "error",
         message := some "Missing or invalid \x27stream_id\x27",
         streamIdField := none, fileField := none }, st, false)
  | .streamId sid =>
      if qsetContains st.knownStreams sid = false then
        ({ httpStatus := 404, status := "failed",
           message := some "Unknown \x27stream_id\x27",
           streamIdField := none, fileField := none }, st, false)
      else
        let wasRecording := qhashValue st.recordingState sid false
        let wasPending := qhashValue st.recordingPending sid false
        if wasRecording = false ∧ wasPending = false then
          ({ httpStatus := 200, status := "ok",
             message := some "not recording",
             streamIdField := some sid, fileField := none }, st, false)
        else
          let st1 :=
            if wasPending ∧ wasRecording = false then
              { st with stopPending := qhashInsert st.stopPending sid true }
            else st
          let filePath := pollLastFile recStopPollTicks obs
          if filePath = "" then
            ({ httpStatus := 200, status := "ok",
               message := some "stop requested; recording file not yet known",
               streamIdField := some sid, fileField := some none }, st1, true)
          else
            ({ httpStatus := 200, status := "ok", message := none,
               streamIdField := some sid, fileField := some (some filePath) }, st1, true)

/-- The `POST /stream/start` route handler (HttpHandler.cpp lines 283-309).
The stream id is not validated against any collection; the handler only
emits `startStreamRequested` and echoes the id. -/
def streamStartHandler (st : ServerState) (body : ParsedBody) :
    HttpJsonResponse × ServerState × Bool :=
  match body with
  | .malformed e =>
      ({ httpStatus := 400, status := "error",
         message := some ("JSON parse error: " ++ e),
         streamIdField := none, fileField := none }, st, false)
  | .missingStreamId =>
      ({ httpStatus := 400, status := "error",
         message := some "Missing or invalid \x27stream_id\x27",
         streamIdField := none, fileField := none }, st, false)
  | .streamId sid =>
      ({ httpStatus := 200, status := "ok", message := none,
         streamIdField := some sid, fileField := none }, st, true)

/-- The `POST /stream/stop` route handler (HttpHandler.cpp lines 315-343);
same shape as `/stream/start` but emits `stopStreamRequested`. -/
def streamStopHandler (st : ServerState) (body : ParsedBody) :
    HttpJsonResponse × ServerState × Bool :=
  match body with
  | .malformed e =>
      ({ httpStatus := 400, status := "error",
         message := some ("JSON parse error: " ++ e),
         streamIdField := none, fileField := none }, st, false)
  | .missingStreamId =>
      ({ httpStatus := 400, status := "error",
         message := some "Missing or invalid \x27stream_id\x27",
         streamIdField := none, fileField := none }, st, false)
  | .streamId sid =>
      ({ httpStatus := 200, status := "ok", message := none,
         streamIdField := some sid, fileField := none }, st, true)

/-! ## Recorder engine (`Mp4RecorderWorker`, HttpHandler.hpp lines 89-384)

`AV_NOPTS_VALUE` timestamps are `none`; `float`/`double` arithmetic is
idealized as exact rational arithmetic; libav calls become either pure
arithmetic (`av_rescale_q`) or entries of an action trace (`RecAction`). -/

/-- `AVRational`. -/
structure AVRational where
  num : Int
  den : Int
deriving DecidableEq, Repr

/-- C99 integer division: truncation toward zero (also the semantics of
`static_cast<int>` on a nonnegative float value). -/
def cIntDiv (a b : Int) : Int :=
  let q : Nat := a.natAbs / b.natAbs
  if (a < 0) = (b < 0) then (q : Int) else -(q : Int)

/-- `av_q2d`: the rational as an exact number. -/
def av_q2d (q : AVRational) : Rat := (q.num : Rat) / (q.den : Rat)

/-- `av_rescale_rnd(a, b, c, AV_ROUND_NEAR_INF)` for positive `b`, `c`:
nearest, halfway away from zero. -/
def av_rescale_rnd_near (a b c : Int) : Int :=
  if a < 0 then -(cIntDiv ((-a) * b + cIntDiv c 2) c)
  else cIntDiv (a * b + cIntDiv c 2) c

/-- `av_rescale_q(a, bq, cq)`. -/
def av_rescale_q (a : Int) (bq cq : AVRational) : Int :=
  av_rescale_rnd_near a (bq.num * cq.den) (cq.num * bq.den)

/-- Truncation of an exact rational to `int`, as `static_cast<int>` does
on the corresponding float value. -/
def ratTruncToInt (q : Rat) : Int := cIntDiv q.num (q.den : Int)

/-- `EncodedVideoPacket` (Utils.hpp). -/
structure EncodedVideoPacket where
  streamId : String
  data : List Nat
  pts : Option Int
  dts : Option Int
  duration : Int
  key : Bool
  time_base : AVRational
deriving DecidableEq, Repr

/-- `StreamInfo` (Utils.hpp). -/
structure StreamInfo where
  streamId : String
  width : Int
  height : Int
  timeBase : AVRational
  codecId : Int
  extradata : List Nat
deriving DecidableEq, Repr

/-- The single video stream of the output context: its time base as set
by `startRecording`, and whether extradata was copied into its codec
parameters. -/
structure OutStreamInfo where
  time_base : AVRational
  hasExtradata : Bool
deriving DecidableEq, Repr

/-- The packet handed to `av_interleaved_write_frame`. -/
structure OutPkt where
  pts : Option Int
  dts : Option Int
  duration : Int
  keyFlag : Bool
deriving DecidableEq, Repr

/-- Externally visible actions of the recorder: libav calls on the output
and the Qt signals it emits. -/
inductive RecAction where
  | writeFrame (pkt : OutPkt)
  | writeTrailer
  | closeOutput
  | freeExtradata
  | freeOutputContext
  | emitRecordingStarted (streamId filePath : String)
  | emitRecordingStopped (streamId : String)
deriving DecidableEq, Repr

/-- The fields of `Mp4RecorderWorker`. `outCtx` holds the filename of the
allocated output context; `timerDelayMs` is the armed single-shot
post-stop timer. -/
structure RecorderState where
  streamId : String
  infoReady : Bool
  codecId : Int
  timeBase : AVRational
  width : Int
  height : Int
  extradata : List Nat
  pre_buffering_time : Rat
  post_buffering_time : Rat
  recording : Bool
  outCtx : Option String
  outStream : Option OutStreamInfo
  recStartPts : Option Int
  prebuffer : List EncodedVideoPacket
  mFolder : String
  stopPending : Bool
  timerDelayMs : Option Int
deriving DecidableEq, Repr

/-- `Mp4RecorderWorker::onStreamInfo`. -/
def onStreamInfo (st : RecorderState) (info : StreamInfo) : RecorderState :=
  { st with codecId := info.codecId, timeBase := info.timeBase,
            width := info.width, height := info.height,
            extradata := info.extradata, infoReady := true }

/-- `ts = pts if known else dts` of a packet. -/
def tsOf (p : EncodedVideoPacket) : Option Int :=
  match p.pts with
  | some v => some v
  | none => p.dts

/-- The packet media time in seconds: `ts * av_q2d(time_base)`. -/
def secOf (p : EncodedVideoPacket) : Option Rat :=
  (tsOf p).map (fun t => (t : Rat) * av_q2d p.time_base)

/-- The pre-roll trim loop of `onPacket`: drop from the front while
`last_sec - first_sec > pre_buffering_time`; a front packet with unknown
`pts` and `dts` breaks the loop. -/
def trimPrebuffer (limit lastSec : Rat) :
    List EncodedVideoPacket → List EncodedVideoPacket
  | [] => []
  | first :: rest =>
      match secOf first with
      | none => first :: rest
      | some firstSec =>
          if lastSec - firstSec > limit then trimPrebuffer limit lastSec rest
          else first :: rest

/-- `Mp4RecorderWorker::writePacket` (HttpHandler.hpp lines 310-355). -/
def writePacket (st : RecorderState) (packet : EncodedVideoPacket) :
    RecorderState × List RecAction :=
  match st.outCtx, st.outStream with
  | some _, some os =>
      if st.recording then
        let src_pts := match packet.pts with
          | some v => some v
          | none => packet.dts
        let recStart :=
          if st.recStartPts = none ∧ src_pts ≠ none then src_pts
          else st.recStartPts
        let opts : Option Int :=
          match packet.pts, recStart with
          | some v, some s => some (av_rescale_q (v - s) packet.time_base os.time_base)
          | _, _ => none
        let odts : Option Int :=
          match packet.dts, recStart with
          | some v, some s => some (av_rescale_q (v - s) packet.time_base os.time_base)
          | _, _ => none
        let odur : Int :=
          if packet.duration > 0 then
            av_rescale_q packet.duration packet.time_base os.time_base
          else 0
        ({ st with recStartPts := recStart },
         [RecAction.writeFrame
            { pts := opts, dts := odts, duration := odur, keyFlag := packet.key }])
      else (st, [])
  | _, _ => (st, [])

/-- `Mp4RecorderWorker::onPacket` (HttpHandler.hpp lines 119-146). -/
def onPacket (st : RecorderState) (packet : EncodedVideoPacket) :
    RecorderState × List RecAction :=
  if st.recording then writePacket st packet
  else
    let buf := st.prebuffer ++ [packet]
    let buf2 :=
      match secOf packet with
      | none => buf
      | some lastSec => trimPrebuffer st.pre_buffering_time lastSec buf
    ({ st with prebuffer := buf2 }, [])

/-- `rec_{stream_id}_{timestamp}.mp4` under the base folder
(`Mp4RecorderWorker::makeRecordFilename`); the wall-clock timestamp
string is a parameter. -/
def makeRecordFilename (streamId folder timestamp : String) : String :=
  folder ++ "/rec_" ++ streamId ++ "_" ++ timestamp ++ ".mp4"

/-- Success / failure of the four fallible libav steps of
`startRecording`: output-context allocation, stream creation, file open,
header write. -/
structure MuxEnv where
  allocOk : Bool
  newStreamOk : Bool
  openOk : Bool
  headerOk : Bool
deriving DecidableEq, Repr

/-- The pre-roll flush loop of `startRecording`: `writePacket` over each
buffered packet, accumulating the write actions. -/
def flushPrebuffer (st : RecorderState) :
    List EncodedVideoPacket → RecorderState × List RecAction
  | [] => (st, [])
  | p :: rest =>
      let r1 := writePacket st p
      let r2 := flushPrebuffer r1.1 rest
      (r2.1, r1.2 ++ r2.2)

/-- `Mp4RecorderWorker::startRecording` (HttpHandler.hpp lines 148-218). -/
def startRecording (st : RecorderState) (env : MuxEnv) (timestamp : String) :
    RecorderState × List RecAction :=
  if st.recording then (st, [])
  else if st.infoReady = false then (st, [])
  else
    let filename := makeRecordFilename st.streamId st.mFolder timestamp
    if env.allocOk = false then (st, [])
    else if env.newStreamOk = false then (st, [RecAction.freeOutputContext])
    else if env.openOk = false then (st, [RecAction.freeOutputContext])
    else if env.headerOk = false then
      (st, [RecAction.closeOutput, RecAction.freeOutputContext])
    else
      let os : OutStreamInfo :=
        { time_base := st.timeBase, hasExtradata := st.extradata ≠ [] }
      let st1 := { st with outCtx := some filename, outStream := some os,
                           recStartPts := none, recording := true }
      let flushed := flushPrebuffer st1 st1.prebuffer
      ({ flushed.1 with prebuffer := [] },
       flushed.2 ++ [RecAction.emitRecordingStarted st.streamId filename])

/-- `Mp4RecorderWorker::finalizeRecording` (HttpHandler.hpp lines 357-383). -/
def finalizeRecording (st : RecorderState) : RecorderState × List RecAction :=
  if st.recording = false then (st, [])
  else
    let acts :=
      match st.outCtx with
      | none => []
      | some _ =>
          [RecAction.writeTrailer, RecAction.closeOutput] ++
          (match st.outStream with
           | some os => if os.hasExtradata then [RecAction.freeExtradata] else []
           | none => []) ++
          [RecAction.freeOutputContext]
    ({ st with outCtx := none, outStream := none, recStartPts := none,
               recording := false, stopPending := false, timerDelayMs := none },
     acts)

/-- `Mp4RecorderWorker::stopRecording` (HttpHandler.hpp lines 220-255). -/
def stopRecording (st : RecorderState) : RecorderState × List RecAction :=
  if st.recording = false then (st, [])
  else if st.post_buffering_time ≤ 0 then finalizeRecording st
  else if st.stopPending then (st, [])
  else
    let delayMs := ratTruncToInt (st.post_buffering_time * 1000)
    ({ st with stopPending := true, timerDelayMs := some delayMs },
     [RecAction.emitRecordingStopped st.streamId])

/-- `Mp4RecorderWorker::onPostBufferTimeout` (HttpHandler.hpp lines 259-265). -/
def onPostBufferTimeout (st : RecorderState) : RecorderState × List RecAction :=
  if st.recording ∧ st.stopPending then finalizeRecording st else (st, [])

/-! ## Startup registration and registry events (claim C8)

`HttpDataServer::registerStream` and `onStreamOnlineChanged` are defined
in `src/src/http/HttpHandler.cpp`; the `main.cpp` revision that wires
them (calling `registerStream` per configured stream and connecting
`streamOnlineChanged`) is not under `src/`. -/

/-- Modelled from the spec: the missing startup wiring of `main.cpp`.
Per §3 (a registry entry is "created on first mention (config load or
first online event)") and §4.3 (`register(id)` ensures the key exists
with neutral state), startup registers every configured stream id with
the HTTP registry. -/
def initServerState (configured : List String) : ServerState :=
  configured.foldl registerStream emptyServerState

/-- The registry-writing notifications the workers deliver to
`HttpDataServer` while it serves requests. -/
inductive ServerEvent where
  | onlineChanged (streamId : String) (online : Bool)
  | recStarted (streamId filePath : String)
  | recStopped (streamId : String)
deriving DecidableEq, Repr

/-- The stream id carried by an event. -/
def ServerEvent.sid : ServerEvent → String
  | .onlineChanged s _ => s
  | .recStarted s _ => s
  | .recStopped s => s

/-- Dispatch of an event to the corresponding `HttpDataServer` slot. -/
def applyServerEvent (st : ServerState) : ServerEvent → ServerState
  | .onlineChanged s b => onStreamOnlineChanged st s b
  | .recStarted s f => (onRecordingStarted st s f).1
  | .recStopped s => onRecordingStopped st s

/-- A whole run of notifications. -/
def runServerEvents (st : ServerState) (tr : List ServerEvent) : ServerState :=
  tr.foldl applyServerEvent st

/-- The ids an event trace has reported an online edge for. -/
def onlineSeen (tr : List ServerEvent) : List String :=
  tr.filterMap (fun e =>
    match e with
    | .onlineChanged s _ => some s
    | _ => none)

/-! ## File store (`GET /files/list`, HttpHandler.cpp lines 573-630) -/

/-- What `QFileInfo` reports for one directory entry. -/
structure FsEntry where
  name : String
  isFile : Bool
  isSymlink : Bool
  isReadable : Bool
  mtimeMs : Int
  sizeBytes : Int
deriving DecidableEq, Repr

/-- The Qt sort comparator (`QDirSortItemComparator`) for
`QDir::Time | QDir::Reversed`: `r = mtime(b) - mtime(a)` (ties broken by
`QString::compare(name(a), name(b))`), and `Reversed` makes the
comparator return `r > 0` — so the entry with the SMALLER mtime comes
first. -/
def qdirTimeReversedBefore (a b : FsEntry) : Bool :=
  if a.mtimeMs = b.mtimeMs then decide (b.name < a.name)
  else decide (a.mtimeMs < b.mtimeMs)

/-- Insertion step of the comparator sort. -/
def insertSorted {α : Type} (before : α → α → Bool) (x : α) : List α → List α
  | [] => [x]
  | y :: ys => if before x y then x :: y :: ys else y :: insertSorted before x ys

/-- Comparator sort (`std::sort` on a strict weak order, realized as an
insertion sort; the orders agree whenever no two entries tie). -/
def sortByBefore {α : Type} (before : α → α → Bool) : List α → List α
  | [] => []
  | x :: xs => insertSorted before x (sortByBefore before xs)

/-- The `*.{ext}` glob of the name filter: the file name ends with
`"." ++ ext` (stated on the character lists so that it evaluates by
structural reduction). -/
def nameEndsWith (name suffix : String) : Bool :=
  suffix.data.isSuffixOf name.data

/-- `QDir::entryInfoList` under
`QDir::Files | QDir::Readable | QDir::NoSymLinks`,
`QDir::Time | QDir::Reversed`, and the optional `*.{ext}` name filter. -/
def entryInfoList (entries : List FsEntry) (nameFilterExt : Option String) :
    List FsEntry :=
  let filtered := entries.filter (fun e =>
    e.isFile && e.isReadable && !e.isSymlink &&
    (match nameFilterExt with
     | none => true
     | some ext => nameEndsWith e.name ("." ++ ext)))
  sortByBefore qdirTimeReversedBefore filtered

/-- One element of the `files` array in the `/files/list` response
(`last_modified` stands for the serialized `last_modified_utc`). -/
structure FileItem where
  name : String
  size_bytes : Int
  last_modified : Int
deriving DecidableEq, Repr

/-- The `/files/list` response object. -/
structure FilesListResponse where
  httpStatus : Nat
  status : String
  message : Option String
  folder_base : String
  count : Option Nat
  ext_filter : Option String
  files : Option (List FileItem)
deriving DecidableEq, Repr

/-- The `GET /files/list` route handler (HttpHandler.cpp lines 573-630).
`baseExists` is `QDir(mFolderBasePath).exists()`; `entries` the directory
contents; `allParam` / `extParam` the query parameters. -/
def filesListHandler (baseExists : Bool) (entries : List FsEntry)
    (folderBase : String) (allParam extParam : Option String) :
    FilesListResponse :=
  if baseExists = false then
    { httpStatus := 500, status := "failed",
      message := some "Base folder does not exist",
      folder_base := folderBase, count := none, ext_filter := none,
      files := none }
  else
    let listAll : Bool :=
      match allParam with
      | some v => v = "1" || v = "true" || v = "yes"
      | none => false
    let ext :=
      match extParam with
      | none => "mp4"
      | some s =>
          let t := s.trim
          let t2 := if t.startsWith "." then t.drop 1 else t
          if t2 = "" then "mp4" else t2
    let es := entryInfoList entries (if listAll then none else some ext)
    let items := (es.filter (fun e => e.isFile)).map (fun e =>
      { name := e.name, size_bytes := e.sizeBytes,
        last_modified := e.mtimeMs : FileItem })
    { httpStatus := 200, status := "ok", message := none,
      folder_base := folderBase, count := some items.length,
      ext_filter := some (if listAll then "*" else ext),
      files := some items }

/-! ## Theorems: HTTP record control (claims C1, C2, C7, C10) -/

/-- What claim C2 asserts of the `/record/start` pre-check on a known
stream id. -/
def RecordStartPrecheckP (st : ServerState) (sid : String)
    (obs : List (Option String)) : Prop :=
  (qhashValue st.recordingState sid false = true →
     recordStartHandler st (.streamId sid) obs =
       ({ httpStatus := 200, status := "ok",
          message := some "already recording", streamIdField := some sid,
          fileField := some (qhashLookup st.lastRecordingFile sid) }, st, false)) ∧
  (qhashValue st.recordingState sid false = false →
   qhashValue st.recordingPending sid false = true →
     recordStartHandler st (.streamId sid) obs =
       ({ httpStatus := 202, status := "ok",
          message := some "start already pending", streamIdField := some sid,
          fileField := none }, st, false)) ∧
  (qhashValue st.recordingState sid false = false →
   qhashValue st.recordingPending sid false = false →
     qhashValue (recordStartHandler st (.streamId sid) obs).2.1.recordingPending
         sid false = true ∧
     qhashValue (recordStartHandler st (.streamId sid) obs).2.1.stopPending
         sid false = false ∧
     qhashLookup (recordStartHandler st (.streamId sid) obs).2.1.lastRecordingFile
         sid = none ∧
     (recordStartHandler st (.streamId sid) obs).2.2 = true)

/-- C2: `POST /record/start` performs an atomic pre-check on the registry
entry: if the stream is already recording it responds 200 with message
"already recording" and the last known file; if a start is already
pending it responds 202 with message "start already pending"; otherwise,
before signalling the recorder, it sets `start_pending`, clears
`stop_pending` and forgets `last_file` for that stream (and the signal is
emitted). -/
theorem record_start_precheck (st : ServerState) (sid : String)
    (obs : List (Option String))
    (hknown : qsetContains st.knownStreams sid = true) :
    RecordStartPrecheckP st sid obs := by
  refine ⟨?_, ?_, ?_⟩
  · intro hrec
    simp only [qhashValue] at hrec
    simp [recordStartHandler, hknown, qhashValue, hrec]
  · intro hrec hpend
    simp only [qhashValue] at hrec hpend
    simp [recordStartHandler, hknown, qhashValue, hrec, hpend]
  · intro hrec hpend
    simp only [qhashValue] at hrec hpend
    by_cases hp : pollLastFile recStartPollTicks obs = ""
    · simp [recordStartHandler, hknown, hrec, hpend, hp, qhashValue,
            qhashLookup_insert_self, qhashLookup_remove_self]
    · simp [recordStartHandler, hknown, hrec, hpend, hp, qhashValue,
            qhashLookup_insert_self, qhashLookup_remove_self]

/-- Concrete registry state used by the witnesses: one known stream
`cam01`, neither recording nor pending. -/
def witnessServerState : ServerState :=
  { knownStreams := ["cam01"], streamingState := [],
    recordingState := [("cam01", false)], recordingPending := [],
    stopPending := [], lastRecordingFile := [] }

theorem record_start_precheck_witness :
    qsetContains witnessServerState.knownStreams "cam01" = true ∧
    RecordStartPrecheckP witnessServerState "cam01" [] :=
  ⟨by decide, record_start_precheck witnessServerState "cam01" [] (by decide)⟩

/-- What claim C1 asserts of the `/record/start` wait-with-deadline on a
known stream id that is neither recording nor start-pending. -/
def RecordStartWaitP (st : ServerState) (sid : String)
    (obs : List (Option String)) (f : String) : Prop :=
  (recordStartHandler st (.streamId sid) obs).2.2 = true ∧
  qhashValue (recordStartHandler st (.streamId sid) obs).2.1.recordingPending
      sid false = true ∧
  (pollLastFile recStartPollTicks obs = f → f ≠ "" →
     (recordStartHandler st (.streamId sid) obs).1 =
       { httpStatus := 200, status := "ok", message := none,
         streamIdField := some sid, fileField := some (some f) }) ∧
  (pollLastFile recStartPollTicks obs = "" →
     (recordStartHandler st (.streamId sid) obs).1 =
       { httpStatus := 500, status := "failed",
         message := some "timeout waiting for recording file to be created/known",
         streamIdField := some sid, fileField := some none })

/-- C1: on a known stream id that is neither recording nor start-pending,
`POST /record/start` marks the start pending, signals the recorder, and
polls the registry (50 ms cadence, 2000 ms deadline, i.e.
`recStartPollTicks` reads) for `last_file`; if a (nonempty) file path
appears it responds 200 `status:"ok"` with that file, and if the deadline
elapses it responds 500 `status:"failed"` with the timeout message and
`file:null`. -/
theorem record_start_wait_deadline (st : ServerState) (sid : String)
    (obs : List (Option String)) (f : String)
    (hknown : qsetContains st.knownStreams sid = true)
    (hrec : qhashValue st.recordingState sid false = false)
    (hpend : qhashValue st.recordingPending sid false = false) :
    RecordStartWaitP st sid obs f := by
  simp only [qhashValue] at hrec hpend
  refine ⟨?_, ?_, ?_, ?_⟩
  · by_cases hp : pollLastFile recStartPollTicks obs = "" <;>
      simp [recordStartHandler, hknown, qhashValue, hrec, hpend, hp]
  · by_cases hp : pollLastFile recStartPollTicks obs = "" <;>
      simp [recordStartHandler, hknown, hrec, hpend, hp, qhashValue,
            qhashLookup_insert_self]
  · intro hp hne
    have hp2 : pollLastFile recStartPollTicks obs ≠ "" := by
      rw [hp]; exact hne
    simp [recordStartHandler, hknown, qhashValue, hrec, hpend, hp2, hp, hne]
  · intro hp
    simp [recordStartHandler, hknown, qhashValue, hrec, hpend, hp]

theorem record_start_wait_deadline_witness :
    (qsetContains witnessServerState.knownStreams "cam01" = true ∧
     qhashValue witnessServerState.recordingState "cam01" false = false ∧
     qhashValue witnessServerState.recordingPending "cam01" false = false) ∧
    RecordStartWaitP witnessServerState "cam01"
      [none, some "./rec_cam01_2026-01-01_00-00-00.mp4"]
      "./rec_cam01_2026-01-01_00-00-00.mp4" :=
  ⟨⟨by decide, by decide, by decide⟩,
   record_start_wait_deadline witnessServerState "cam01"
     [none, some "./rec_cam01_2026-01-01_00-00-00.mp4"]
     "./rec_cam01_2026-01-01_00-00-00.mp4" (by decide) (by decide) (by decide)⟩

/-- C7: two successive `POST /record/stop` for the same id are
idempotent: once the first stop has taken effect (the recorder published
`recordingStopped` and `onRecordingStopped` updated the registry), the
second request answers 200 `status:"ok"`, message "not recording",
without touching the registry or signalling the recorder. -/
theorem record_stop_idempotent (st : ServerState) (sid : String)
    (obs : List (Option String)) :
    recordStopHandler (onRecordingStopped st sid) (.streamId sid) obs =
      ({ httpStatus := 200, status := "ok", message := some "not recording",
         streamIdField := some sid, fileField := none },
       onRecordingStopped st sid, false) := by
  have h1 : qsetContains (onRecordingStopped st sid).knownStreams sid = true := by
    simp [onRecordingStopped, qsetContains_insert_self]
  have h2 : qhashValue (onRecordingStopped st sid).recordingState sid false = false := by
    simp [onRecordingStopped, qhashValue, qhashLookup_insert_self]
  have h3 : qhashValue (onRecordingStopped st sid).recordingPending sid false = false := by
    simp [onRecordingStopped, qhashValue, qhashLookup_insert_self]
  simp [recordStopHandler, h1, h2, h3]

/-- C10: `POST /stream/start` and `POST /stream/stop` never validate the
stream id: any body with a string `stream_id` gets 200 `status:"ok"`
echoing the id (the handlers only emit the capture signal), even for an
id the registry does not know — whereas `/record/start` and
`/record/stop` answer 404 for that same unknown id. -/
theorem stream_handlers_skip_validation (st : ServerState) (sid : String)
    (obs : List (Option String))
    (hunknown : qsetContains st.knownStreams sid = false) :
    streamStartHandler st (.streamId sid) =
      ({ httpStatus := 200, status := "ok", message := none,
         streamIdField := some sid, fileField := none }, st, true) ∧
    streamStopHandler st (.streamId sid) =
      ({ httpStatus := 200, status := "ok", message := none,
         streamIdField := some sid, fileField := none }, st, true) ∧
    (recordStartHandler st (.streamId sid) obs).1 =
      { httpStatus := 404, status := "failed",
        message := some "Unknown \x27stream_id\x27",
        streamIdField := none, fileField := none } ∧
    (recordStopHandler st (.streamId sid) obs).1 =
      { httpStatus := 404, status := "failed",
        message := some "Unknown \x27stream_id\x27",
        streamIdField := none, fileField := none } := by
  refine ⟨rfl, rfl, ?_, ?_⟩
  · simp [recordStartHandler, hunknown]
  · simp [recordStopHandler, hunknown]

theorem stream_handlers_skip_validation_witness :
    qsetContains emptyServerState.knownStreams "ghost" = false ∧
    (streamStartHandler emptyServerState (.streamId "ghost") =
       ({ httpStatus := 200, status := "ok", message := none,
          streamIdField := some "ghost", fileField := none },
        emptyServerState, true) ∧
     streamStopHandler emptyServerState (.streamId "ghost") =
       ({ httpStatus := 200, status := "ok", message := none,
          streamIdField := some "ghost", fileField := none },
        emptyServerState, true) ∧
     (recordStartHandler emptyServerState (.streamId "ghost") []).1 =
       { httpStatus := 404, status := "failed",
         message := some "Unknown \x27stream_id\x27",
         streamIdField := none, fileField := none } ∧
     (recordStopHandler emptyServerState (.streamId "ghost") []).1 =
       { httpStatus := 404, status := "failed",
         message := some "Unknown \x27stream_id\x27",
         streamIdField := none, fileField := none }) :=
  ⟨by decide, stream_handlers_skip_validation emptyServerState "ghost" [] (by decide)⟩

/-! ## Theorems: recorder engine (claims C3, C4, C5, C6) -/

theorem trimPrebuffer_suffix (limit lastSec : Rat)
    (l : List EncodedVideoPacket) :
    (trimPrebuffer limit lastSec l).IsSuffix l := by
  induction l with
  | nil => simp [trimPrebuffer]
  | cons p rest ih =>
      simp only [trimPrebuffer]
      cases hsec : secOf p with
      | none => exact List.suffix_refl _
      | some fs =>
          by_cases h : lastSec - fs > limit
          · simp only [h, if_true]
            exact ih.trans (List.suffix_cons p rest)
          · simp only [h, if_false]
            exact List.suffix_refl _

theorem trimPrebuffer_head_bound (limit lastSec : Rat)
    (l : List EncodedVideoPacket) (p : EncodedVideoPacket)
    (rest : List EncodedVideoPacket) (fs : Rat)
    (hres : trimPrebuffer limit lastSec l = p :: rest)
    (hsec : secOf p = some fs) : lastSec - fs ≤ limit := by
  induction l with
  | nil => simp [trimPrebuffer] at hres
  | cons q t ih =>
      cases hq : secOf q with
      | none =>
          simp only [trimPrebuffer, hq] at hres
          obtain ⟨rfl, rfl⟩ : q = p ∧ t = rest := by
            exact ⟨by injection hres, by injection hres⟩
          rw [hq] at hsec
          exact absurd hsec (by simp)
      | some qs =>
          simp only [trimPrebuffer, hq] at hres
          by_cases hgt : lastSec - qs > limit
          · rw [if_pos hgt] at hres
            exact ih hres
          · rw [if_neg hgt] at hres
            obtain ⟨rfl, rfl⟩ : q = p ∧ t = rest := by
              exact ⟨by injection hres, by injection hres⟩
            rw [hq] at hsec
            obtain rfl : qs = fs := by injection hsec
            exact le_of_not_lt hgt

/-- What claim C4 asserts of one non-recording `onPacket` step. -/
def PrerollTrimP (st : RecorderState) (packet : EncodedVideoPacket) : Prop :=
  ((onPacket st packet).1.prebuffer).IsSuffix (st.prebuffer ++ [packet]) ∧
  (secOf packet = none →
     (onPacket st packet).1.prebuffer = st.prebuffer ++ [packet]) ∧
  (∀ q t, st.prebuffer = q :: t → secOf q = none →
     (onPacket st packet).1.prebuffer = st.prebuffer ++ [packet]) ∧
  (∀ first rest fs ls,
     (onPacket st packet).1.prebuffer = first :: rest →
     secOf first = some fs → secOf packet = some ls →
     ls - fs ≤ st.pre_buffering_time) ∧
  ((onPacket st packet).1.prebuffer ≠ [] →
     ((onPacket st packet).1.prebuffer).getLast? = some packet)

/-- C4: while not recording, each arriving packet is appended to the
pre-roll ring and the ring is then trimmed only from the front
(`IsSuffix`); a packet with both timestamps unknown performs no trim,
an unknown-timestamp ring head stops the trim, and afterwards the
media-time span `last.ts - first.ts` (each via its own time base) never
strictly exceeds `pre_buffering_time`; the newest packet stays the back
of the ring. -/
theorem preroll_trim_bound (st : RecorderState) (packet : EncodedVideoPacket)
    (hrec : st.recording = false) : PrerollTrimP st packet := by
  have hbuf : (onPacket st packet).1.prebuffer =
      (match secOf packet with
       | none => st.prebuffer ++ [packet]
       | some lastSec =>
           trimPrebuffer st.pre_buffering_time lastSec (st.prebuffer ++ [packet])) := by
    simp [onPacket, hrec]
  refine ⟨?_, ?_, ?_, ?_, ?_⟩
  · rw [hbuf]
    cases hsec : secOf packet with
    | none => exact List.suffix_refl _
    | some ls => exact trimPrebuffer_suffix _ _ _
  · intro hsec
    rw [hbuf, hsec]
  · intro q t hpre hq
    rw [hbuf]
    cases hsec : secOf packet with
    | none => rfl
    | some ls =>
        rw [hpre]
        simp only [List.cons_append, trimPrebuffer, hq]
        rfl
  · intro first rest fs ls hres hfirst hlast
    rw [hbuf, hlast] at hres
    exact trimPrebuffer_head_bound _ _ _ _ _ _ hres hfirst
  · intro hne
    have hsuf : ((onPacket st packet).1.prebuffer).IsSuffix
        (st.prebuffer ++ [packet]) := by
      rw [hbuf]
      cases hsec : secOf packet with
      | none => exact List.suffix_refl _
      | some ls => exact trimPrebuffer_suffix _ _ _
    obtain ⟨t, ht⟩ := hsuf
    have h1 : (t ++ (onPacket st packet).1.prebuffer).getLast? =
        ((onPacket st packet).1.prebuffer).getLast? :=
      List.getLast?_append_of_ne_nil t hne
    rw [ht] at h1
    rw [← h1, List.getLast?_concat]

/-- Concrete recorder used by the witnesses: idle, stream info observed. -/
def witnessRecorder : RecorderState :=
  { streamId := "cam01", infoReady := true, codecId := 27,
    timeBase := { num := 1, den := 90000 }, width := 1920, height := 1080,
    extradata := [0, 1], pre_buffering_time := 5,
    post_buffering_time := 1 / 2, recording := false, outCtx := none,
    outStream := none, recStartPts := none, prebuffer := [], mFolder := ".",
    stopPending := false, timerDelayMs := none }

/-- Concrete packet used by the witnesses. -/
def witnessPacket : EncodedVideoPacket :=
  { streamId := "cam01", data := [0], pts := some 6000, dts := some 6000,
    duration := 40, key := true, time_base := { num := 1, den := 1000 } }

theorem preroll_trim_bound_witness :
    witnessRecorder.recording = false ∧
    PrerollTrimP witnessRecorder witnessPacket :=
  ⟨rfl, preroll_trim_bound witnessRecorder witnessPacket rfl⟩

/-- What claim C5 asserts of one `writePacket` call while recording, with
`os` the output stream. -/
def WritePacketP (st : RecorderState) (packet : EncodedVideoPacket)
    (os : OutStreamInfo) : Prop :=
  (writePacket st packet).1.recStartPts =
    (if st.recStartPts = none ∧ tsOf packet ≠ none then tsOf packet
     else st.recStartPts) ∧
  (writePacket st packet).2 =
    [RecAction.writeFrame
      { pts :=
          match packet.pts, (writePacket st packet).1.recStartPts with
          | some v, some s =>
              some (av_rescale_q (v - s) packet.time_base os.time_base)
          | _, _ => none,
        dts :=
          match packet.dts, (writePacket st packet).1.recStartPts with
          | some v, some s =>
              some (av_rescale_q (v - s) packet.time_base os.time_base)
          | _, _ => none,
        duration :=
          if packet.duration > 0 then
            av_rescale_q packet.duration packet.time_base os.time_base
          else 0,
        keyFlag := packet.key }]

/-- C5: while recording, `rec_start_pts` is latched from the first packet
whose `src` (`pts` if known else `dts`) is known; the written packet has
`pts = rescale(packet.pts - rec_start_pts)` into the output stream time
base when both are known and unknown otherwise, likewise `dts`; duration
is the rescaled duration when positive and 0 otherwise; the keyframe
flag is preserved. -/
theorem write_packet_rebase (st : RecorderState)
    (packet : EncodedVideoPacket) (ctx : String) (os : OutStreamInfo)
    (hrec : st.recording = true) (hctx : st.outCtx = some ctx)
    (hos : st.outStream = some os) : WritePacketP st packet os := by
  unfold WritePacketP writePacket
  rw [hctx, hos]
  simp [hrec, tsOf]

/-- Concrete recorder mid-recording, for the C5 witness. -/
def witnessRecorderRec : RecorderState :=
  { witnessRecorder with
    recording := true,
    outCtx := some "./rec_cam01_2026-01-01_00-00-00.mp4",
    outStream := some { time_base := { num := 1, den := 90000 },
                        hasExtradata := true } }

theorem write_packet_rebase_witness :
    (witnessRecorderRec.recording = true ∧
     witnessRecorderRec.outCtx = some "./rec_cam01_2026-01-01_00-00-00.mp4" ∧
     witnessRecorderRec.outStream =
       some { time_base := { num := 1, den := 90000 }, hasExtradata := true }) ∧
    WritePacketP witnessRecorderRec witnessPacket
      { time_base := { num := 1, den := 90000 }, hasExtradata := true } :=
  ⟨⟨rfl, rfl, rfl⟩,
   write_packet_rebase witnessRecorderRec witnessPacket
     "./rec_cam01_2026-01-01_00-00-00.mp4"
     { time_base := { num := 1, den := 90000 }, hasExtradata := true }
     rfl rfl rfl⟩

theorem writePacket_fields (st : RecorderState) (p : EncodedVideoPacket) :
    (writePacket st p).1.outCtx = st.outCtx ∧
    (writePacket st p).1.outStream = st.outStream ∧
    (writePacket st p).1.recording = st.recording ∧
    (writePacket st p).1.prebuffer = st.prebuffer := by
  unfold writePacket
  cases hc : st.outCtx with
  | none => cases ho : st.outStream <;> simp [hc, ho]
  | some c =>
      cases ho : st.outStream with
      | none => simp [hc, ho]
      | some os => by_cases hr : st.recording <;> simp [hc, ho, hr]

theorem flushPrebuffer_fields (l : List EncodedVideoPacket)
    (st : RecorderState) :
    (flushPrebuffer st l).1.outCtx = st.outCtx ∧
    (flushPrebuffer st l).1.outStream = st.outStream ∧
    (flushPrebuffer st l).1.recording = st.recording ∧
    (flushPrebuffer st l).1.prebuffer = st.prebuffer := by
  induction l generalizing st with
  | nil => simp [flushPrebuffer]
  | cons p rest ih =>
      have hw := writePacket_fields st p
      have hr := ih (writePacket st p).1
      simp only [flushPrebuffer]
      exact ⟨hr.1.trans hw.1, hr.2.1.trans hw.2.1,
             hr.2.2.1.trans hw.2.2.1, hr.2.2.2.trans hw.2.2.2⟩

/-- What claim C6 asserts of `startRecording`. -/
def StartRecordingP (st : RecorderState) (env : MuxEnv)
    (timestamp : String) : Prop :=
  (st.recording = true → startRecording st env timestamp = (st, [])) ∧
  (st.recording = false → st.infoReady = false →
     startRecording st env timestamp = (st, [])) ∧
  (st.recording = false → st.infoReady = true → env.allocOk = false →
     startRecording st env timestamp = (st, [])) ∧
  (st.recording = false → st.infoReady = true → env.allocOk = true →
   env.newStreamOk = false →
     startRecording st env timestamp = (st, [RecAction.freeOutputContext])) ∧
  (st.recording = false → st.infoReady = true → env.allocOk = true →
   env.newStreamOk = true → env.openOk = false →
     startRecording st env timestamp = (st, [RecAction.freeOutputContext])) ∧
  (st.recording = false → st.infoReady = true → env.allocOk = true →
   env.newStreamOk = true → env.openOk = true → env.headerOk = false →
     startRecording st env timestamp =
       (st, [RecAction.closeOutput, RecAction.freeOutputContext])) ∧
  (st.recording = false → st.infoReady = true →
   (env.allocOk = false ∨ env.newStreamOk = false ∨ env.openOk = false ∨
      env.headerOk = false) →
     (startRecording st env timestamp).1 = st ∧
     (∀ s f2,
        RecAction.emitRecordingStarted s f2 ∉ (startRecording st env timestamp).2) ∧
     (∀ p, RecAction.writeFrame p ∉ (startRecording st env timestamp).2)) ∧
  (st.recording = false → st.infoReady = true → env.allocOk = true →
   env.newStreamOk = true → env.openOk = true → env.headerOk = true →
     (startRecording st env timestamp).1.recording = true ∧
     (startRecording st env timestamp).1.prebuffer = [] ∧
     (startRecording st env timestamp).1.outCtx =
       some (makeRecordFilename st.streamId st.mFolder timestamp) ∧
     (startRecording st env timestamp).2.getLast? =
       some (RecAction.emitRecordingStarted st.streamId
         (makeRecordFilename st.streamId st.mFolder timestamp)))

/-- C6: `startRecording` is accepted iff the recorder is not already
recording and stream info has been observed (otherwise a logged no-op);
on each failure path all partially created resources are freed (nothing
after a failed allocation; the output context after a failed stream
creation or file open; the opened file and then the context after a
failed header write) and the state is unchanged — still idle, the
pre-roll buffer untouched — with neither `recordingStarted` nor any
frame write produced; on full success it enters recording on the
freshly named file, drains and clears the pre-roll buffer and finally
publishes `recordingStarted`. -/
theorem start_recording_guard_rollback (st : RecorderState) (env : MuxEnv)
    (timestamp : String) : StartRecordingP st env timestamp := by
  refine ⟨?_, ?_, ?_, ?_, ?_, ?_, ?_, ?_⟩
  · intro hrec
    simp [startRecording, hrec]
  · intro hrec hinfo
    simp [startRecording, hrec, hinfo]
  · intro hrec hinfo ha
    simp [startRecording, hrec, hinfo, ha]
  · intro hrec hinfo ha hn
    simp [startRecording, hrec, hinfo, ha, hn]
  · intro hrec hinfo ha hn hop
    simp [startRecording, hrec, hinfo, ha, hn, hop]
  · intro hrec hinfo ha hn hop hh
    simp [startRecording, hrec, hinfo, ha, hn, hop, hh]
  · intro hrec hinfo hfail
    by_cases ha : env.allocOk = false
    · simp [startRecording, hrec, hinfo, ha]
    · simp only [Bool.not_eq_false] at ha
      by_cases hn : env.newStreamOk = false
      · simp [startRecording, hrec, hinfo, ha, hn]
      · simp only [Bool.not_eq_false] at hn
        by_cases hop : env.openOk = false
        · simp [startRecording, hrec, hinfo, ha, hn, hop]
        · simp only [Bool.not_eq_false] at hop
          by_cases hh : env.headerOk = false
          · simp [startRecording, hrec, hinfo, ha, hn, hop, hh]
          · simp only [Bool.not_eq_false] at hh
            rcases hfail with h | h | h | h <;> simp_all
  · intro hrec hinfo ha hn hop hh
    refine ⟨?_, ?_, ?_, ?_⟩ <;>
      simp [startRecording, hrec, hinfo, ha, hn, hop, hh,
            (flushPrebuffer_fields _ _).1, (flushPrebuffer_fields _ _).2.2.1,
            List.getLast?_concat]

theorem start_recording_guard_rollback_witness :
    (witnessRecorder.recording = false ∧ witnessRecorder.infoReady = true) ∧
    StartRecordingP witnessRecorder
      { allocOk := true, newStreamOk := true, openOk := true, headerOk := true }
      "2026-01-01_00-00-00" :=
  ⟨⟨rfl, rfl⟩,
   start_recording_guard_rollback witnessRecorder
     { allocOk := true, newStreamOk := true, openOk := true, headerOk := true }
     "2026-01-01_00-00-00"⟩

/-- What claim C3 asserts of `stopRecording` / the post-roll timeout, for
a recorder currently recording. -/
def StopPostRollP (st : RecorderState) : Prop :=
  (st.post_buffering_time ≤ 0 → stopRecording st = finalizeRecording st) ∧
  (0 < st.post_buffering_time → st.stopPending = true →
     stopRecording st = (st, [])) ∧
  (0 < st.post_buffering_time → st.stopPending = false →
     stopRecording st =
       ({ st with
          stopPending := true,
          timerDelayMs := some (ratTruncToInt (st.post_buffering_time * 1000)) },
        [RecAction.emitRecordingStopped st.streamId]) ∧
     (stopRecording st).1.recording = true ∧
     (∀ p, onPacket (stopRecording st).1 p = writePacket (stopRecording st).1 p)) ∧
  (st.stopPending = true →
     onPostBufferTimeout st = finalizeRecording st ∧
     (finalizeRecording st).1.recording = false ∧
     (finalizeRecording st).1.outCtx = none ∧
     (finalizeRecording st).1.outStream = none ∧
     (finalizeRecording st).1.stopPending = false ∧
     (∀ f os, st.outCtx = some f → st.outStream = some os →
        (finalizeRecording st).2 =
          [RecAction.writeTrailer, RecAction.closeOutput] ++
          (if os.hasExtradata then [RecAction.freeExtradata] else []) ++
          [RecAction.freeOutputContext]))

/-- C3: with `post_roll ≤ 0` a stop finalizes immediately; with
`post_roll > 0` a stop while a stop is pending is a no-op, and otherwise
the stop arms the single-shot timer for `trunc(post_roll × 1000)` ms,
immediately publishes `recordingStopped`, and keeps the recorder in the
writing state (incoming packets still go through `writePacket`); when the
timer fires with the stop still pending, the recorder writes the
trailer, closes the output, frees the extradata (when present) and the
output context, and returns to idle. -/
theorem stop_post_roll (st : RecorderState) (hrec : st.recording = true) :
    StopPostRollP st := by
  refine ⟨?_, ?_, ?_, ?_⟩
  · intro hle
    simp [stopRecording, hrec, hle]
  · intro hlt hsp
    simp [stopRecording, hrec, not_le.mpr hlt, hsp]
  · intro hlt hsp
    have hstop : stopRecording st =
        ({ st with
           stopPending := true,
           timerDelayMs := some (ratTruncToInt (st.post_buffering_time * 1000)) },
         [RecAction.emitRecordingStopped st.streamId]) := by
      simp [stopRecording, hrec, not_le.mpr hlt, hsp]
    refine ⟨hstop, ?_, ?_⟩
    · rw [hstop]; exact hrec
    · intro p
      rw [hstop]
      simp [onPacket, hrec]
  · intro hsp
    refine ⟨?_, ?_, ?_, ?_, ?_, ?_⟩
    · simp [onPostBufferTimeout, hrec, hsp]
    · simp [finalizeRecording, hrec]
    · simp [finalizeRecording, hrec]
    · simp [finalizeRecording, hrec]
    · simp [finalizeRecording, hrec]
    · intro f os hf ho
      simp [finalizeRecording, hrec, hf, ho]

/-- Concrete recorder in the writing state with a pending stop, for the
C3 witness. -/
def witnessRecorderStopping : RecorderState :=
  { witnessRecorderRec with stopPending := true }

theorem stop_post_roll_witness :
    witnessRecorderStopping.recording = true ∧
    StopPostRollP witnessRecorderStopping :=
  ⟨rfl, stop_post_roll witnessRecorderStopping rfl⟩

/-! ## Theorems: registry keys (claim C8) -/

theorem registerStream_contains (st : ServerState) (s y : String) :
    qsetContains (registerStream st s).knownStreams y = true ↔
      qsetContains st.knownStreams y = true ∨ y = s := by
  by_cases h : qsetContains st.knownStreams s = true
  · simp only [registerStream, h, if_true]
    constructor
    · exact Or.inl
    · rintro (hy | rfl)
      · exact hy
      · exact h
  · simp only [Bool.not_eq_true] at h
    simp only [registerStream, h, Bool.false_eq_true, if_false]
    exact qsetContains_insert st.knownStreams s y

theorem foldl_registerStream_contains (configured : List String)
    (st : ServerState) (y : String) :
    qsetContains (configured.foldl registerStream st).knownStreams y = true ↔
      qsetContains st.knownStreams y = true ∨ y ∈ configured := by
  induction configured generalizing st with
  | nil => simp
  | cons c cs ih =>
      simp only [List.foldl_cons, List.mem_cons]
      rw [ih (registerStream st c), registerStream_contains]
      tauto

theorem initServerState_contains (configured : List String) (y : String) :
    qsetContains (initServerState configured).knownStreams y = true ↔
      y ∈ configured := by
  rw [initServerState, foldl_registerStream_contains]
  simp [emptyServerState, qsetContains]

theorem applyServerEvent_contains (st : ServerState) (e : ServerEvent)
    (y : String) :
    qsetContains (applyServerEvent st e).knownStreams y = true ↔
      qsetContains st.knownStreams y = true ∨ y = e.sid := by
  cases e <;>
    simp [applyServerEvent, onStreamOnlineChanged, onRecordingStarted,
          onRecordingStopped, ServerEvent.sid, qsetContains_insert]

theorem runServerEvents_contains (tr : List ServerEvent) (st : ServerState)
    (y : String) :
    qsetContains (runServerEvents st tr).knownStreams y = true ↔
      qsetContains st.knownStreams y = true ∨ ∃ e ∈ tr, e.sid = y := by
  induction tr generalizing st with
  | nil => simp [runServerEvents]
  | cons e rest ih =>
      simp only [runServerEvents, List.foldl_cons] at ih ⊢
      rw [ih (applyServerEvent st e), applyServerEvent_contains]
      simp only [List.exists_mem_cons_iff]
      tauto

theorem onlineSeen_sub (tr : List ServerEvent) (y : String)
    (hy : y ∈ onlineSeen tr) : ∃ e ∈ tr, e.sid = y := by
  simp only [onlineSeen, List.mem_filterMap] at hy
  obtain ⟨e, he, hmatch⟩ := hy
  refine ⟨e, he, ?_⟩
  cases e with
  | onlineChanged s b =>
      simp only [Option.some.injEq] at hmatch
      simpa [ServerEvent.sid] using hmatch
  | recStarted s f => simp at hmatch
  | recStopped s => simp at hmatch

/-- What claim C8 asserts: after startup registration and any run of
worker notifications, the registry keys are the union of configured ids
and ids seen online, and configured ids are never rejected as unknown by
the record endpoints. -/
def RegistryUnionP (configured : List String) (tr : List ServerEvent)
    (sid : String) (obs : List (Option String)) : Prop :=
  (qsetContains
      (runServerEvents (initServerState configured) tr).knownStreams sid = true ↔
    (sid ∈ configured ∨ sid ∈ onlineSeen tr)) ∧
  (sid ∈ configured →
     (recordStartHandler (runServerEvents (initServerState configured) tr)
        (.streamId sid) obs).1.httpStatus ≠ 404 ∧
     (recordStopHandler (runServerEvents (initServerState configured) tr)
        (.streamId sid) obs).1.httpStatus ≠ 404)

/-- C8: at every instant (startup registration followed by any sequence
of online-changed / recording-started / recording-stopped notifications,
which in this system all carry configured ids), the registry key set is
the union of configured ids and ids ever seen online; every configured
id is a key from startup, so `/record/start` and `/record/stop` on a
configured id never answer 404 unknown-stream-id. -/
theorem registry_union_keys (configured : List String) (tr : List ServerEvent)
    (sid : String) (obs : List (Option String))
    (h : ∀ e ∈ tr, e.sid ∈ configured) :
    RegistryUnionP configured tr sid obs := by
  have hmain : qsetContains
      (runServerEvents (initServerState configured) tr).knownStreams sid = true ↔
      (sid ∈ configured ∨ sid ∈ onlineSeen tr) := by
    rw [runServerEvents_contains, initServerState_contains]
    constructor
    · rintro (hc | ⟨e, he, rfl⟩)
      · exact Or.inl hc
      · exact Or.inl (h e he)
    · rintro (hc | ho)
      · exact Or.inl hc
      · exact Or.inr (onlineSeen_sub tr sid ho)
  refine ⟨hmain, ?_⟩
  intro hcfg
  have hc : qsetContains
      (runServerEvents (initServerState configured) tr).knownStreams sid = true :=
    hmain.mpr (Or.inl hcfg)
  constructor
  · simp only [recordStartHandler, hc]
    split_ifs <;> simp_all
  · simp only [recordStopHandler, hc]
    split_ifs <;> simp_all

theorem registry_union_keys_witness :
    (∀ e ∈ [ServerEvent.onlineChanged "cam01" true], e.sid ∈ ["cam01"]) ∧
    RegistryUnionP ["cam01"] [ServerEvent.onlineChanged "cam01" true]
      "cam01" [] :=
  ⟨by decide,
   registry_union_keys ["cam01"] [ServerEvent.onlineChanged "cam01" true]
     "cam01" [] (by decide)⟩

/-! ## Theorems: file listing order (claim C9) -/

/-- The older regular file of the C9 failing input. -/
def fsOlder : FsEntry :=
  { name := "a.mp4", isFile := true, isSymlink := false, isReadable := true,
    mtimeMs := 1000, sizeBytes := 10 }

/-- The newer regular file of the C9 failing input. -/
def fsNewer : FsEntry :=
  { name := "b.mp4", isFile := true, isSymlink := false, isReadable := true,
    mtimeMs := 2000, sizeBytes := 20 }

/-- C9 (divergence witness): with the base folder present and two regular
readable mp4 files, the handler answers 200 but lists the OLDER file
first — `QDir::Time | QDir::Reversed` sorts oldest-first, contradicting
the claimed (and commented) newest-first order; the 500 missing-folder
branch behaves as claimed. -/
theorem files_list_oldest_first :
    (filesListHandler true [fsNewer, fsOlder] "./recordings" none none).httpStatus
        = 200 ∧
    (filesListHandler true [fsNewer, fsOlder] "./recordings" none none).files =
      some [{ name := "a.mp4", size_bytes := 10, last_modified := 1000 },
            { name := "b.mp4", size_bytes := 20, last_modified := 2000 }] ∧
    (filesListHandler false [] "./recordings" none none).httpStatus = 500 ∧
    (filesListHandler false [] "./recordings" none none).status = "failed" ∧
    (filesListHandler false [] "./recordings" none none).message =
      some "Base folder does not exist" := by
  refine ⟨rfl, ?_, rfl, rfl, rfl⟩
  decide

end NVRLite
